import Mathlib

/-!
Verification of the air-cooler correlation module (`ht/air_cooler.py`).

The module is a set of pure numerical functions over IEEE doubles; we embed
them shallowly over `ℝ`.  Machine arithmetic appears only through the
transcendental primitives `log`, `log10`, `sin`, `atan`, which we model by
their real counterparts.  Division by zero and `log` of a non-positive
number raise exceptions in Python; for the claims about error propagation we
additionally give an `Option ℝ`-valued embedding (`Ft_aircoolerE`) in which
every fallible primitive returns `none` exactly when Python raises.

External collaborators:
* `scipy.constants.minute` and `scipy.constants.hp` are fixed unit-conversion
  constants, embedded by their defining values.
* `LMTD` (from `ht.core`, whose code is not part of the staged sources) is
  modelled from the spec as the counterflow log-mean temperature difference.
* `Reynolds`, `Prandtl` (from `fluids`) and `fin_efficiency_Kern_Kraus`
  (from `ht.core`) are kept abstract: the heat-transfer-coefficient
  functions take them as function parameters, exactly as the source calls
  them.
-/

namespace HT

noncomputable section

/-- `scipy.constants.minute`: seconds per minute. -/
def minute : ℝ := 60

/-- `scipy.constants.hp`: one mechanical horsepower in watts,
550 ft·lbf/s = 550 · 0.3048 · 0.45359237 · 9.80665 W. -/
def hp : ℝ := 550 * 0.3048 * 0.45359237 * 9.80665

/-- Python `math.log10`. -/
def log10 (x : ℝ) : ℝ := Real.logb 10 x

/-- Modelled from the spec: `LMTD(Thi, Tho, Tci, Tco)` from `ht.core` (only
its callers are under `src/`).  Per §4.1 and the glossary it is the
counterflow log-mean temperature difference of the two terminal temperature
differences `Thi - Tco` and `Tho - Tci`. -/
def LMTD (Thi Tho Tci Tco : ℝ) : ℝ :=
  ((Thi - Tco) - (Tho - Tci)) / Real.log ((Thi - Tco) / (Tho - Tci))

/-- Roetzel-Nicole coefficient table, 1 row 1 pass (source lines 57-60). -/
def _crossflow_1_row_1_pass : List (List ℝ) :=
  [[-4.62e-1, -3.13e-2, -1.74e-1, -4.2e-2],
   [5.08e0, 5.29e-1, 1.32e0, 3.47e-1],
   [-1.57e1, -2.37e0, -2.93e0, -8.53e-1],
   [1.72e1, 3.18e0, 1.99e0, 6.49e-1]]

/-- Roetzel-Nicole coefficient table, 2 rows 1 pass (source lines 62-65). -/
def _crossflow_2_rows_1_pass : List (List ℝ) :=
  [[-3.34e-1, -1.54e-1, -8.65e-2, 5.53e-2],
   [3.3e0, 1.28e0, 5.46e-1, -4.05e-1],
   [-8.7e0, -3.35e0, -9.29e-1, 9.53e-1],
   [8.7e0, 2.83e0, 4.71e-1, -7.17e-1]]

/-- Roetzel-Nicole coefficient table, 3 rows 1 pass (source lines 67-70). -/
def _crossflow_3_rows_1_pass : List (List ℝ) :=
  [[-8.74e-2, -3.18e-2, -1.83e-2, 7.1e-3],
   [1.05e0, 2.74e-1, 1.23e-1, -4.99e-2],
   [-2.45e0, -7.46e-1, -1.56e-1, 1.09e-1],
   [3.21e0, 6.68e-1, 6.17e-2, -7.46e-2]]

/-- Roetzel-Nicole coefficient table, 4 rows 1 pass (source lines 72-75). -/
def _crossflow_4_rows_1_pass : List (List ℝ) :=
  [[-4.14e-2, -1.39e-2, -7.23e-3, 6.1e-3],
   [6.15e-1, 1.23e-1, 5.66e-2, -4.68e-2],
   [-1.2e0, -3.45e-1, -4.37e-2, 1.07e-1],
   [2.06e0, 3.18e-1, 1.11e-2, -7.57e-2]]

/-- Roetzel-Nicole coefficient table, 2 rows 2 passes (source lines 77-80). -/
def _crossflow_2_rows_2_pass : List (List ℝ) :=
  [[-2.35e-1, -7.73e-2, -5.98e-2, 5.25e-3],
   [2.28e0, 6.32e-1, 3.64e-1, -1.27e-2],
   [-6.44e0, -1.63e0, -6.13e-1, -1.14e-2],
   [6.24e0, 1.35e0, 2.76e-1, 2.72e-2]]

/-- Roetzel-Nicole coefficient table, 3 rows 3 passes (source lines 82-85). -/
def _crossflow_3_rows_3_pass : List (List ℝ) :=
  [[-8.43e-1, 3.02e-2, 4.8e-1, 8.12e-2],
   [5.85e0, -9.64e-3, -3.28e0, -8.34e-1],
   [-1.28e1, -2.28e-1, 7.11e0, 2.19e0],
   [9.24e0, 2.66e-1, -4.9e0, -1.69e0]]

/-- Roetzel-Nicole coefficient table, 4 rows 4 passes (source lines 87-90). -/
def _crossflow_4_rows_4_pass : List (List ℝ) :=
  [[-3.39e-1, 2.77e-2, 1.79e-1, -1.99e-2],
   [2.38e0, -9.99e-2, -1.21e0, 4e-2],
   [-5.26e0, 9.04e-2, 2.62e0, 4.94e-2],
   [3.9e0, -8.45e-4, -1.81e0, -9.81e-2]]

/-- Roetzel-Nicole coefficient table, 4 rows 2 passes (source lines 92-95). -/
def _crossflow_4_rows_2_pass : List (List ℝ) :=
  [[-6.05e-1, 2.31e-2, 2.94e-1, 1.98e-2],
   [4.34e0, 5.9e-3, -1.99e0, -3.05e-1],
   [-9.72e0, -2.48e-1, 4.32, 8.97e-1],
   [7.54e0, 2.87e-1, -3e0, -7.31e-1]]

/-- The coefficient-table selection chain of `Ft_aircooler`
(source lines 170-194), factored out verbatim: the same `elif` cascade,
Python `and` as `∧`. -/
def Ft_aircooler_coefs (Ntp rows : ℕ) : List (List ℝ) :=
  if Ntp = 1 ∧ rows = 1 then _crossflow_1_row_1_pass
  else if Ntp = 1 ∧ rows = 2 then _crossflow_2_rows_1_pass
  else if Ntp = 1 ∧ rows = 3 then _crossflow_3_rows_1_pass
  else if Ntp = 1 ∧ rows = 4 then _crossflow_4_rows_1_pass
  else if Ntp = 1 ∧ 4 < rows then _crossflow_4_rows_1_pass
  else if Ntp = 2 ∧ rows = 2 then _crossflow_2_rows_2_pass
  else if Ntp = 3 ∧ rows = 3 then _crossflow_3_rows_3_pass
  else if Ntp = 4 ∧ rows = 4 then _crossflow_4_rows_4_pass
  else if 4 < Ntp ∧ 4 < rows ∧ Ntp = rows then _crossflow_4_rows_4_pass
  else if Ntp = 2 ∧ rows = 4 then _crossflow_4_rows_2_pass
  else _crossflow_4_rows_2_pass

/-- `Ft_aircooler(Thi, Tho, Tci, Tco, Ntp=1, rows=1)` (source lines 100-202):
crossflow LMTD correction factor.  The nested `for` loops over
`range(len(coefs))` are embedded as left folds in source order, with the
`x0` hoisting of the source kept; the float exponent `k + 1.` is integral,
so it is embedded as a natural power. -/
def Ft_aircooler (Thi Tho Tci Tco : ℝ) (Ntp : ℕ := 1) (rows : ℕ := 1) : ℝ :=
  let dTlm := LMTD Thi Tho Tci Tco
  let rlm := dTlm / (Thi - Tci)
  let R := (Thi - Tho) / (Tco - Tci)
  let coefs := Ft_aircooler_coefs Ntp rows
  let atanR := Real.arctan R
  let tot := (List.range coefs.length).foldl (fun tot k =>
    let x0 := (1 - rlm) ^ (k + 1)
    (List.range coefs.length).foldl (fun tot i =>
      tot + (coefs.getD k []).getD i 0 * x0 * Real.sin (2 * ((i : ℝ) + 1) * atanR)) tot) 0
  1 - tot

/-- Python float division: `x / y` raises `ZeroDivisionError` when `y == 0`,
modelled as `none`. -/
def divE (x y : ℝ) : Option ℝ := if y = 0 then none else some (x / y)

/-- Python `math.log`: raises `ValueError` on a non-positive argument,
modelled as `none`. -/
def logE (x : ℝ) : Option ℝ := if x ≤ 0 then none else some (Real.log x)

/-- Modelled from the spec: `LMTD` with Python's numeric-exception semantics,
each fallible primitive in the evaluation order of the formula. -/
def LMTD_E (Thi Tho Tci Tco : ℝ) : Option ℝ := do
  let r ← divE (Thi - Tco) (Tho - Tci)
  let l ← logE r
  divE ((Thi - Tco) - (Tho - Tci)) l

/-- `Ft_aircooler` with Python's numeric-exception semantics: the same
computation as `Ft_aircooler`, but every division that Python would perform
on a zero denominator (and every `log` of a non-positive number inside
`LMTD`) aborts the whole call, as an uncaught exception does.  The function
body contains no handler, so a `none` from any primitive is the final
result. -/
def Ft_aircoolerE (Thi Tho Tci Tco : ℝ) (Ntp : ℕ := 1) (rows : ℕ := 1) :
    Option ℝ := do
  let dTlm ← LMTD_E Thi Tho Tci Tco
  let rlm ← divE dTlm (Thi - Tci)
  let R ← divE (Thi - Tho) (Tco - Tci)
  let coefs := Ft_aircooler_coefs Ntp rows
  let atanR := Real.arctan R
  let tot := (List.range coefs.length).foldl (fun tot k =>
    let x0 := (1 - rlm) ^ (k + 1)
    (List.range coefs.length).foldl (fun tot i =>
      tot + (coefs.getD k []).getD i 0 * x0 * Real.sin (2 * ((i : ℝ) + 1) * atanR)) tot) 0
  return 1 - tot

/-- `air_cooler_noise_GPSA(tip_speed, power)` (source lines 205-243). -/
def air_cooler_noise_GPSA (tip_speed power : ℝ) : ℝ :=
  let tip_speed := tip_speed * minute
  let power := power / hp
  56.0 + 30.0 * log10 (tip_speed / 304.8) + 10.0 * log10 power

/-- `air_cooler_noise_Mukherjee(tip_speed, power, fan_diameter,
induced=False)` (source lines 246-290). -/
def air_cooler_noise_Mukherjee (tip_speed power fan_diameter : ℝ)
    (induced : Bool := false) : ℝ :=
  let noise := 46.0 + 30.0 * log10 tip_speed + 10.0 * log10 (power / hp) -
    20.0 * log10 fan_diameter
  if induced then noise - 3.0 else noise

/-- `h_Briggs_Young(...)` (source lines 293-397).  The external collaborators
`Reynolds(V, D, rho, mu)`, `Prandtl(Cp, mu, k)` (from `fluids`) and
`fin_efficiency_Kern_Kraus(Do, D_fin, t_fin, k_fin, h)` (from `ht.core`) are
abstract function parameters, applied exactly as the source applies them. -/
def h_Briggs_Young (Reynolds : ℝ → ℝ → ℝ → ℝ → ℝ) (Prandtl : ℝ → ℝ → ℝ → ℝ)
    (fin_efficiency_Kern_Kraus : ℝ → ℝ → ℝ → ℝ → ℝ → ℝ)
    (m A A_min A_increase A_fin A_tube_showing tube_diameter fin_diameter
      fin_thickness bare_length rho Cp mu k k_fin : ℝ) : ℝ :=
  let fin_height := 0.5 * (fin_diameter - tube_diameter)
  let V_max := m / (A_min * rho)
  let Re := Reynolds V_max tube_diameter rho mu
  let Pr := Prandtl Cp mu k
  let Nu := 0.134 * Re ^ (0.681 : ℝ) * Pr ^ ((1 : ℝ) / 3) *
    (bare_length / fin_height) ^ (0.2 : ℝ) *
    (bare_length / fin_thickness) ^ (0.1134 : ℝ)
  let h := k / tube_diameter * Nu
  let efficiency :=
    fin_efficiency_Kern_Kraus tube_diameter fin_diameter fin_thickness k_fin h
  let h_total_area_basis := (efficiency * A_fin + A_tube_showing) / A * h
  let h_bare_tube_basis := h_total_area_basis * A_increase
  h_bare_tube_basis

/-- `h_ESDU_highfin_staggered(...)` (source lines 400-496), with the same
abstract collaborators as `h_Briggs_Young`. -/
def h_ESDU_highfin_staggered (Reynolds : ℝ → ℝ → ℝ → ℝ → ℝ)
    (Prandtl : ℝ → ℝ → ℝ → ℝ)
    (fin_efficiency_Kern_Kraus : ℝ → ℝ → ℝ → ℝ → ℝ → ℝ)
    (m A A_min A_increase A_fin A_tube_showing tube_diameter fin_diameter
      fin_thickness bare_length pitch_parallel pitch_normal rho Cp mu k
      k_fin : ℝ) : ℝ :=
  let fin_height := 0.5 * (fin_diameter - tube_diameter)
  let V_max := m / (A_min * rho)
  let Re := Reynolds V_max tube_diameter rho mu
  let Pr := Prandtl Cp mu k
  let Nu := 0.242 * Re ^ (0.658 : ℝ) *
    (bare_length / fin_height) ^ (0.297 : ℝ) *
    (pitch_normal / pitch_parallel) ^ (-0.091 : ℝ) * Pr ^ ((1 : ℝ) / 3)
  let h := k / tube_diameter * Nu
  let efficiency :=
    fin_efficiency_Kern_Kraus tube_diameter fin_diameter fin_thickness k_fin h
  let h_total_area_basis := (efficiency * A_fin + A_tube_showing) / A * h
  let h_bare_tube_basis := h_total_area_basis * A_increase
  h_bare_tube_basis

/-- Every branch of the selection chain returns a 4 × 4 table. -/
lemma Ft_aircooler_coefs_length (Ntp rows : ℕ) :
    (Ft_aircooler_coefs Ntp rows).length = 4 := by
  unfold Ft_aircooler_coefs
  split_ifs <;> rfl

lemma list_range_four : List.range 4 = [0, 1, 2, 3] := rfl

/-- The accumulation loop of `Ft_aircooler` written as the double sum of the
Roetzel-Nicole series: outer index `k` (powers of `1 - rlm`), inner index
`i` (sine terms). -/
lemma Ft_aircooler_eq_sum (Thi Tho Tci Tco : ℝ) (Ntp rows : ℕ) :
    Ft_aircooler Thi Tho Tci Tco Ntp rows =
      1 - ∑ k in Finset.range 4, ∑ i in Finset.range 4,
        ((Ft_aircooler_coefs Ntp rows).getD k []).getD i 0 *
          (1 - LMTD Thi Tho Tci Tco / (Thi - Tci)) ^ (k + 1) *
          Real.sin (2 * ((i : ℝ) + 1) *
            Real.arctan ((Thi - Tho) / (Tco - Tci))) := by
  simp only [Ft_aircooler, Ft_aircooler_coefs_length, list_range_four,
    List.foldl_cons, List.foldl_nil, Finset.sum_range_succ,
    Finset.sum_range_zero]
  norm_num
  ring

/-- On arguments where no primitive fails, the exception-aware `LMTD_E`
returns exactly the real-valued `LMTD`. -/
lemma LMTD_E_eq_some (Thi Tho Tci Tco : ℝ) (h1 : Tho - Tci ≠ 0)
    (h2 : 0 < (Thi - Tco) / (Tho - Tci))
    (h3 : Real.log ((Thi - Tco) / (Tho - Tci)) ≠ 0) :
    LMTD_E Thi Tho Tci Tco = some (LMTD Thi Tho Tci Tco) := by
  unfold LMTD_E LMTD divE logE
  rw [if_neg h1]
  show (if _ ≤ (0 : ℝ) then _ else _ : Option ℝ).bind _ = _
  rw [if_neg (not_le.mpr h2)]
  show (if _ = (0 : ℝ) then _ else _ : Option ℝ) = _
  rw [if_neg h3]

/-- On arguments where no primitive fails, the exception-aware
`Ft_aircoolerE` refines the real-valued `Ft_aircooler`: the two embeddings
are the same computation. -/
lemma Ft_aircoolerE_eq_some (Thi Tho Tci Tco : ℝ) (Ntp rows : ℕ)
    (h1 : Tho - Tci ≠ 0) (h2 : 0 < (Thi - Tco) / (Tho - Tci))
    (h3 : Real.log ((Thi - Tco) / (Tho - Tci)) ≠ 0)
    (h4 : Thi - Tci ≠ 0) (h5 : Tco - Tci ≠ 0) :
    Ft_aircoolerE Thi Tho Tci Tco Ntp rows =
      some (Ft_aircooler Thi Tho Tci Tco Ntp rows) := by
  unfold Ft_aircoolerE
  rw [LMTD_E_eq_some Thi Tho Tci Tco h1 h2 h3]
  show (divE _ _).bind _ = _
  rw [divE, if_neg h4]
  show (divE _ _).bind _ = _
  rw [divE, if_neg h5]
  rfl

/-- Two-sided bounds for `log (1 - x)` from the truncated Mercator series,
a restatement of `Real.abs_log_sub_add_sum_range_le`. -/
lemma log_one_sub_bounds {x : ℝ} (hx : |x| < 1) (n : ℕ) :
    -(∑ i in Finset.range n, x ^ (i + 1) / (i + 1)) -
        |x| ^ (n + 1) / (1 - |x|) ≤ Real.log (1 - x) ∧
      Real.log (1 - x) ≤
        -(∑ i in Finset.range n, x ^ (i + 1) / (i + 1)) +
          |x| ^ (n + 1) / (1 - |x|) := by
  have h := Real.abs_log_sub_add_sum_range_le hx n
  rw [abs_le] at h
  exact ⟨by linarith [h.1], by linarith [h.2]⟩

/-- Numeric bounds for `log (3/2)` (25 series terms at `x = 1/3`). -/
lemma log_three_halves_bounds :
    (0.4054651081075 : ℝ) ≤ Real.log (3 / 2) ∧
      Real.log (3 / 2) ≤ 0.4054651081090 := by
  have hx : |(1 / 3 : ℝ)| < 1 := by
    rw [abs_of_pos (by norm_num : (0 : ℝ) < 1 / 3)]
    norm_num
  have h := log_one_sub_bounds hx 25
  rw [abs_of_pos (by norm_num : (0 : ℝ) < 1 / 3),
    show (1 : ℝ) - 1 / 3 = 2 / 3 by norm_num] at h
  have hinv : Real.log (3 / 2) = -Real.log (2 / 3) := by
    rw [show (2 / 3 : ℝ) = (3 / 2)⁻¹ by norm_num, Real.log_inv, neg_neg]
  obtain ⟨h1, h2⟩ := h
  norm_num [Finset.sum_range_succ] at h1 h2
  rw [hinv]
  constructor <;> linarith

/-- Numeric bounds for `log (5295/4064)` (24 series terms at
`x = -1231/4064`); `5295/508 = 2^3 · 5295/4064` is the tip-speed ratio of
the GPSA example. -/
lemma log_ratio_A_bounds :
    (0.2645952687765 : ℝ) ≤ Real.log (5295 / 4064) ∧
      Real.log (5295 / 4064) ≤ 0.2645952687780 := by
  have hx0 : (-1231 / 4064 : ℝ) < 0 := by norm_num
  have hx : |(-1231 / 4064 : ℝ)| < 1 := by
    rw [abs_of_neg hx0]
    norm_num
  have h := log_one_sub_bounds hx 24
  rw [abs_of_neg hx0,
    show (1 : ℝ) - -1231 / 4064 = 5295 / 4064 by norm_num] at h
  obtain ⟨h1, h2⟩ := h
  norm_num [Finset.sum_range_succ] at h1 h2
  constructor <;> linarith

/-- Numeric bounds for `log (5/4)` (18 series terms at `x = -1/4`);
`10 = 2^3 · 5/4` gives `log 10`. -/
lemma log_five_fourths_bounds :
    (0.2231435513085 : ℝ) ≤ Real.log (5 / 4) ∧
      Real.log (5 / 4) ≤ 0.2231435513195 := by
  have hx0 : (-1 / 4 : ℝ) < 0 := by norm_num
  have hx : |(-1 / 4 : ℝ)| < 1 := by
    rw [abs_of_neg hx0]
    norm_num
  have h := log_one_sub_bounds hx 18
  rw [abs_of_neg hx0, show (1 : ℝ) - -1 / 4 = 5 / 4 by norm_num] at h
  obtain ⟨h1, h2⟩ := h
  norm_num [Finset.sum_range_succ] at h1 h2
  constructor <;> linarith

/-- Numeric bounds for the log of the reduced power ratio of the GPSA
example: `25.1 · 745.7 / hp = 24 · r` with
`r = 116981687500000000/111854980737340533` (10 series terms). -/
lemma log_ratio_B_bounds :
    (0.0448141879995 : ℝ) ≤
        Real.log (116981687500000000 / 111854980737340533) ∧
      Real.log (116981687500000000 / 111854980737340533) ≤
        0.0448141880015 := by
  have hx0 : (-5126706762659467 / 111854980737340533 : ℝ) < 0 := by norm_num
  have hx : |(-5126706762659467 / 111854980737340533 : ℝ)| < 1 := by
    rw [abs_of_neg hx0]
    norm_num
  have h := log_one_sub_bounds hx 10
  rw [abs_of_neg hx0,
    show (1 : ℝ) - -5126706762659467 / 111854980737340533 =
      116981687500000000 / 111854980737340533 by norm_num] at h
  obtain ⟨h1, h2⟩ := h
  norm_num [Finset.sum_range_succ] at h1 h2
  constructor <;> linarith

/-- The GPSA example value, bounded by rational interval arithmetic over the
log bounds above. -/
lemma air_cooler_noise_GPSA_value :
    |air_cooler_noise_GPSA (3177 / 60) (25.1 * 745.7) -
        100.53680477959792| < 1e-6 := by
  have hA := log_ratio_A_bounds
  have hL := log_three_halves_bounds
  have hB := log_ratio_B_bounds
  have hC := log_five_fourths_bounds
  have h2a := Real.log_two_gt_d9
  have h2b := Real.log_two_lt_d9
  have e1 : (3177 / 60 : ℝ) * minute / 304.8 = 2 ^ 3 * (5295 / 4064) := by
    norm_num [minute]
  have e2 : (25.1 * 745.7 : ℝ) / hp =
      2 ^ 4 * (3 / 2) * (116981687500000000 / 111854980737340533) := by
    norm_num [hp]
  have hP : Real.log ((3177 / 60 : ℝ) * minute / 304.8) =
      3 * Real.log 2 + Real.log (5295 / 4064) := by
    rw [e1, Real.log_mul (by norm_num) (by norm_num), Real.log_pow]
    push_cast
    ring
  have hQ : Real.log ((25.1 * 745.7 : ℝ) / hp) =
      4 * Real.log 2 + Real.log (3 / 2) +
        Real.log (116981687500000000 / 111854980737340533) := by
    rw [e2, Real.log_mul (by norm_num) (by norm_num),
      Real.log_mul (by norm_num) (by norm_num), Real.log_pow]
    push_cast
    ring
  have h10 : Real.log (10 : ℝ) = 3 * Real.log 2 + Real.log (5 / 4) := by
    rw [show (10 : ℝ) = 2 ^ 3 * (5 / 4) by norm_num,
      Real.log_mul (by norm_num) (by norm_num), Real.log_pow]
    push_cast
    ring
  have hval : air_cooler_noise_GPSA (3177 / 60) (25.1 * 745.7) =
      56 + (30 * Real.log ((3177 / 60 : ℝ) * minute / 304.8) +
        10 * Real.log ((25.1 * 745.7 : ℝ) / hp)) / Real.log 10 := by
    simp only [air_cooler_noise_GPSA, log10, Real.logb]
    ring
  rw [hval, hP, hQ, h10]
  have hD1 : (2.3025850922 : ℝ) ≤
      3 * Real.log 2 + Real.log (5 / 4) := by linarith [hC.1]
  have hD2 : 3 * Real.log 2 + Real.log (5 / 4) ≤ (2.3025850938 : ℝ) := by
    linarith [hC.2]
  have hN1 : (102.5497844 : ℝ) ≤
      30 * (3 * Real.log 2 + Real.log (5295 / 4064)) +
        10 * (4 * Real.log 2 + Real.log (3 / 2) +
          Real.log (116981687500000000 / 111854980737340533)) := by
    linarith [hA.1, hL.1, hB.1]
  have hN2 : 30 * (3 * Real.log 2 + Real.log (5295 / 4064)) +
        10 * (4 * Real.log 2 + Real.log (3 / 2) +
          Real.log (116981687500000000 / 111854980737340533)) ≤
      (102.5497846 : ℝ) := by
    linarith [hA.2, hL.2, hB.2]
  have hq1 : (30 * (3 * Real.log 2 + Real.log (5295 / 4064)) +
        10 * (4 * Real.log 2 + Real.log (3 / 2) +
          Real.log (116981687500000000 / 111854980737340533))) /
        (3 * Real.log 2 + Real.log (5 / 4)) ≤
      (102.5497846 : ℝ) / 2.3025850922 :=
    div_le_div₀ (by norm_num) hN2 (by norm_num) hD1
  have hq2 : (102.5497844 : ℝ) / 2.3025850938 ≤
      (30 * (3 * Real.log 2 + Real.log (5295 / 4064)) +
        10 * (4 * Real.log 2 + Real.log (3 / 2) +
          Real.log (116981687500000000 / 111854980737340533))) /
        (3 * Real.log 2 + Real.log (5 / 4)) :=
    div_le_div₀ (by linarith) (by linarith) (by linarith [hD1]) hD2
  rw [abs_lt]
  constructor <;> linarith [hq1, hq2]

/-- Double-angle sine at an arctangent: an exact rational function of the
tangent, used to evaluate the sine terms of the Roetzel-Nicole series in
closed form. -/
lemma sin_two_arctan (x : ℝ) :
    Real.sin (2 * Real.arctan x) = 2 * x / (1 + x ^ 2) := by
  rw [Real.sin_two_mul, Real.sin_arctan, Real.cos_arctan]
  have h0 : (0 : ℝ) ≤ 1 + x ^ 2 := by positivity
  have hs : Real.sqrt (1 + x ^ 2) ≠ 0 := by positivity
  field_simp

/-- Double-angle cosine at an arctangent, exact rational in the tangent. -/
lemma cos_two_arctan (x : ℝ) :
    Real.cos (2 * Real.arctan x) = (1 - x ^ 2) / (1 + x ^ 2) := by
  rw [Real.cos_two_mul, Real.cos_arctan]
  have h0 : (0 : ℝ) ≤ 1 + x ^ 2 := by positivity
  have h1 : (1 + x ^ 2) ≠ 0 := by positivity
  rw [div_pow, one_pow, Real.sq_sqrt h0]
  field_simp
  ring

/-- C1: for every input, `Ft_aircooler` returns `1` minus the double sum over
`k = 0..3` (outer) and `i = 0..3` (inner) of
`coefs[k][i] * (1 - rlm)^(k+1) * sin(2*(i+1)*atan R)`, where
`rlm = LMTD(Thi,Tho,Tci,Tco) / (Thi - Tci)`, `R = (Thi - Tho)/(Tco - Tci)`
and `coefs` is the selected 4 × 4 table. -/
theorem Ft_aircooler_series_formula (Thi Tho Tci Tco : ℝ) (Ntp rows : ℕ) :
    Ft_aircooler Thi Tho Tci Tco Ntp rows =
      1 - ∑ k in Finset.range 4, ∑ i in Finset.range 4,
        ((Ft_aircooler_coefs Ntp rows).getD k []).getD i 0 *
          (1 - LMTD Thi Tho Tci Tco / (Thi - Tci)) ^ (k + 1) *
          Real.sin (2 * ((i : ℝ) + 1) *
            Real.arctan ((Thi - Tho) / (Tco - Tci))) :=
  Ft_aircooler_eq_sum Thi Tho Tci Tco Ntp rows

/-- C10: `Ntp` and `rows` default to `1`, so calling `Ft_aircooler` with only
the four stream temperatures is the same call as `Ntp=1, rows=1` and
evaluates the series with the 1-row-1-pass coefficient table. -/
theorem Ft_aircooler_default_args (Thi Tho Tci Tco : ℝ) :
    Ft_aircooler Thi Tho Tci Tco = Ft_aircooler Thi Tho Tci Tco 1 1 ∧
    Ft_aircooler Thi Tho Tci Tco =
      1 - ∑ k in Finset.range 4, ∑ i in Finset.range 4,
        (_crossflow_1_row_1_pass.getD k []).getD i 0 *
          (1 - LMTD Thi Tho Tci Tco / (Thi - Tci)) ^ (k + 1) *
          Real.sin (2 * ((i : ℝ) + 1) *
            Real.arctan ((Thi - Tho) / (Tco - Tci))) := by
  refine ⟨rfl, ?_⟩
  have h := Ft_aircooler_eq_sum Thi Tho Tci Tco 1 1
  have hsel : Ft_aircooler_coefs 1 1 = _crossflow_1_row_1_pass := rfl
  rw [h]
  simp only [hsel]

/-- C2: the coefficient-table selection of `Ft_aircooler` is total on positive
integers and picks exactly the documented table: the eight tabulated pairs,
the `(1, rows > 4)` and `(Ntp = rows > 4)` fallbacks, and the `(2,4)` table
for every other combination; in particular `Ntp=1, rows=5` computes the same
value as `Ntp=1, rows=4`, and `Ntp=5, rows=5` uses the `(4,4)` table. -/
theorem Ft_aircooler_table_selection (Ntp rows : ℕ) (hN : 0 < Ntp)
    (hr : 0 < rows) :
    (Ntp = 1 ∧ rows = 1 →
      Ft_aircooler_coefs Ntp rows = _crossflow_1_row_1_pass) ∧
    (Ntp = 1 ∧ rows = 2 →
      Ft_aircooler_coefs Ntp rows = _crossflow_2_rows_1_pass) ∧
    (Ntp = 1 ∧ rows = 3 →
      Ft_aircooler_coefs Ntp rows = _crossflow_3_rows_1_pass) ∧
    (Ntp = 1 ∧ rows = 4 →
      Ft_aircooler_coefs Ntp rows = _crossflow_4_rows_1_pass) ∧
    (Ntp = 2 ∧ rows = 2 →
      Ft_aircooler_coefs Ntp rows = _crossflow_2_rows_2_pass) ∧
    (Ntp = 3 ∧ rows = 3 →
      Ft_aircooler_coefs Ntp rows = _crossflow_3_rows_3_pass) ∧
    (Ntp = 4 ∧ rows = 4 →
      Ft_aircooler_coefs Ntp rows = _crossflow_4_rows_4_pass) ∧
    (Ntp = 2 ∧ rows = 4 →
      Ft_aircooler_coefs Ntp rows = _crossflow_4_rows_2_pass) ∧
    (Ntp = 1 ∧ 4 < rows →
      Ft_aircooler_coefs Ntp rows = _crossflow_4_rows_1_pass) ∧
    (4 < Ntp ∧ 4 < rows ∧ Ntp = rows →
      Ft_aircooler_coefs Ntp rows = _crossflow_4_rows_4_pass) ∧
    (Ntp ≠ 1 → ¬(Ntp = 2 ∧ rows = 2) → ¬(Ntp = 3 ∧ rows = 3) →
      ¬(Ntp = 4 ∧ rows = 4) → ¬(Ntp = 2 ∧ rows = 4) →
      ¬(4 < Ntp ∧ 4 < rows ∧ Ntp = rows) →
      Ft_aircooler_coefs Ntp rows = _crossflow_4_rows_2_pass) ∧
    (∀ Thi Tho Tci Tco : ℝ,
      Ft_aircooler Thi Tho Tci Tco 1 5 = Ft_aircooler Thi Tho Tci Tco 1 4) ∧
    Ft_aircooler_coefs 5 5 = _crossflow_4_rows_4_pass := by
  refine ⟨?_, ?_, ?_, ?_, ?_, ?_, ?_, ?_, ?_, ?_, ?_, ?_, ?_⟩
  · rintro ⟨rfl, rfl⟩; rfl
  · rintro ⟨rfl, rfl⟩; rfl
  · rintro ⟨rfl, rfl⟩; rfl
  · rintro ⟨rfl, rfl⟩; rfl
  · rintro ⟨rfl, rfl⟩; rfl
  · rintro ⟨rfl, rfl⟩; rfl
  · rintro ⟨rfl, rfl⟩; rfl
  · rintro ⟨rfl, rfl⟩; rfl
  · rintro ⟨rfl, h⟩
    unfold Ft_aircooler_coefs
    iterate 4 rw [if_neg (by omega)]
    rw [if_pos ⟨rfl, h⟩]
  · rintro ⟨h1, h2, h3⟩
    unfold Ft_aircooler_coefs
    iterate 8 rw [if_neg (by omega)]
    rw [if_pos ⟨h1, h2, h3⟩]
  · intro h1 h2 h3 h4 h5 h6
    unfold Ft_aircooler_coefs
    iterate 10 rw [if_neg (by omega)]
  · intro Thi Tho Tci Tco
    have hsel : Ft_aircooler_coefs 1 5 = Ft_aircooler_coefs 1 4 := by
      unfold Ft_aircooler_coefs
      norm_num
    simp only [Ft_aircooler, hsel]
  · unfold Ft_aircooler_coefs
    norm_num

/-- Witness for C2: at `Ntp=1, rows=7` the `(1,4)` table is selected, and at
`Ntp=6, rows=6` the `(4,4)` table. -/
theorem Ft_aircooler_table_selection_witness :
    Ft_aircooler_coefs 1 7 = _crossflow_4_rows_1_pass ∧
    Ft_aircooler_coefs 6 6 = _crossflow_4_rows_4_pass := by
  have h1 := Ft_aircooler_table_selection 1 7 (by norm_num) (by norm_num)
  have h2 := Ft_aircooler_table_selection 6 6 (by norm_num) (by norm_num)
  exact ⟨h1.2.2.2.2.2.2.2.2.1 ⟨rfl, by norm_num⟩,
    h2.2.2.2.2.2.2.2.2.2.1 ⟨by norm_num, by norm_num, rfl⟩⟩

/-- C4: `air_cooler_noise_GPSA` converts tip speed to m/min and power to
horsepower and returns `56 + 30*log10(tip_speed_m_per_min/304.8) +
10*log10(power_hp)`; in particular at `tip_speed = 3177/60` m/s and
`power = 25.1 * 745.7` W the result is `100.53680477959792` to within
`1e-6`. -/
theorem air_cooler_noise_GPSA_spec (tip_speed power : ℝ)
    (_h1 : 0 < tip_speed) (_h2 : 0 < power) :
    air_cooler_noise_GPSA tip_speed power =
      56 + 30 * log10 (tip_speed * 60 / 304.8) + 10 * log10 (power / hp) ∧
    |air_cooler_noise_GPSA (3177 / 60) (25.1 * 745.7) -
        100.53680477959792| < 1e-6 := by
  refine ⟨?_, air_cooler_noise_GPSA_value⟩
  simp only [air_cooler_noise_GPSA, minute]
  norm_num

/-- Witness for C4, applied at the GPSA example input itself. -/
theorem air_cooler_noise_GPSA_spec_witness :
    |air_cooler_noise_GPSA (3177 / 60) (25.1 * 745.7) -
        100.53680477959792| < 1e-6 :=
  (air_cooler_noise_GPSA_spec (3177 / 60) (25.1 * 745.7) (by norm_num)
    (by norm_num)).2

/-- C8: `Ft_aircooler(Thi=125, Tho=45, Tci=25, Tco=95, Ntp=1, rows=4)`
equals `0.5505093604092708` to within `1e-9` relative error.  The sine terms
are exact rationals in `R = 8/7`; the only transcendental left is
`log (3/2)` inside the LMTD, bounded by `log_three_halves_bounds`. -/
theorem Ft_aircooler_example_value :
    |Ft_aircooler 125 45 25 95 1 4 - 0.5505093604092708| ≤
      1e-9 * 0.5505093604092708 := by
  have hL := log_three_halves_bounds
  have hsel : Ft_aircooler_coefs 1 4 = _crossflow_4_rows_1_pass := rfl
  have hlmtd : LMTD 125 45 25 95 = 10 / Real.log (3 / 2) := by
    unfold LMTD
    norm_num
  rw [Ft_aircooler_eq_sum]
  simp only [hsel, hlmtd]
  rw [show ((125 : ℝ) - 45) / (95 - 25) = 8 / 7 by norm_num]
  have hs1 : Real.sin (2 * Real.arctan (8 / 7 : ℝ)) = 112 / 113 := by
    rw [sin_two_arctan]; norm_num
  have hc1 : Real.cos (2 * Real.arctan (8 / 7 : ℝ)) = -(15 / 113) := by
    rw [cos_two_arctan]; norm_num
  have hs2 : Real.sin (4 * Real.arctan (8 / 7 : ℝ)) = -(3360 / 12769) := by
    rw [show (4 : ℝ) * Real.arctan (8 / 7) =
      2 * (2 * Real.arctan (8 / 7)) by ring, Real.sin_two_mul, hs1, hc1]
    norm_num
  have hc2 : Real.cos (4 * Real.arctan (8 / 7 : ℝ)) = -(12319 / 12769) := by
    rw [show (4 : ℝ) * Real.arctan (8 / 7) =
      2 * (2 * Real.arctan (8 / 7)) by ring, Real.cos_two_mul, hc1]
    norm_num
  have hs3 : Real.sin (6 * Real.arctan (8 / 7 : ℝ)) = -(1329328 / 1442897) := by
    rw [show (6 : ℝ) * Real.arctan (8 / 7) =
      4 * Real.arctan (8 / 7) + 2 * Real.arctan (8 / 7) by ring,
      Real.sin_add, hs2, hc2, hs1, hc1]
    norm_num
  have hs4 : Real.sin (8 * Real.arctan (8 / 7 : ℝ)) = 82783680 / 163047361 := by
    rw [show (8 : ℝ) * Real.arctan (8 / 7) =
      2 * (4 * Real.arctan (8 / 7)) by ring, Real.sin_two_mul, hs2, hc2]
    norm_num
  simp only [Finset.sum_range_succ, Finset.sum_range_zero]
  norm_num [_crossflow_4_rows_1_pass]
  simp only [hs1, hs2, hs3, hs4]
  have hl0 : (0 : ℝ) < Real.log (3 / 2) := by linarith [hL.1]
  have hu1 : (0.7533696537600 : ℝ) ≤ 1 - 10 / Real.log (3 / 2) / 100 := by
    have h : 10 / Real.log (3 / 2) / 100 ≤ 10 / (0.4054651081075 : ℝ) / 100 := by
      gcongr
      exact hL.1
    nlinarith [h]
  have hu2 : 1 - 10 / Real.log (3 / 2) / 100 ≤ (0.7533696537650 : ℝ) := by
    have h : 10 / (0.4054651081090 : ℝ) / 100 ≤ 10 / Real.log (3 / 2) / 100 := by
      gcongr
      exact hL.2
    nlinarith [h]
  generalize hgu : (1 - 10 / Real.log (3 / 2) / 100 : ℝ) = u at hu1 hu2 ⊢
  have hu0 : (0 : ℝ) ≤ u := by linarith
  have p2a : (0.7533696537600 : ℝ) ^ 2 ≤ u ^ 2 := pow_le_pow_left₀ (by norm_num) hu1 2
  have p2b : u ^ 2 ≤ (0.7533696537650 : ℝ) ^ 2 := pow_le_pow_left₀ hu0 hu2 2
  have p3a : (0.7533696537600 : ℝ) ^ 3 ≤ u ^ 3 := pow_le_pow_left₀ (by norm_num) hu1 3
  have p3b : u ^ 3 ≤ (0.7533696537650 : ℝ) ^ 3 := pow_le_pow_left₀ hu0 hu2 3
  have p4a : (0.7533696537600 : ℝ) ^ 4 ≤ u ^ 4 := pow_le_pow_left₀ (by norm_num) hu1 4
  have p4b : u ^ 4 ≤ (0.7533696537650 : ℝ) ^ 4 := pow_le_pow_left₀ hu0 hu2 4
  rw [abs_le]
  constructor <;> linarith [hu1, hu2, p2a, p2b, p3a, p3b, p4a, p4b]

/-- C3 (amended): for every input with `Tco = Tci`, `Ft_aircooler` performs
no special-casing: the division by zero in `R = (Thi - Tho)/(Tco - Tci)`
(or an earlier failing primitive inside `LMTD`) aborts the call as an
unhandled exception, so no numeric result is produced. -/
theorem Ft_aircoolerE_unhandled_div_zero (Thi Tho Tci Tco : ℝ) (Ntp rows : ℕ)
    (h : Tco = Tci) : Ft_aircoolerE Thi Tho Tci Tco Ntp rows = none := by
  unfold Ft_aircoolerE
  have h0 : Tco - Tci = 0 := sub_eq_zero_of_eq h
  cases hL : LMTD_E Thi Tho Tci Tco with
  | none => simp [hL]
  | some d =>
    cases hd : divE d (Thi - Tci) with
    | none => simp [hL, hd]
    | some rlm => simp [hL, hd, divE, h0]

/-- Witness for C3's amended theorem at a concrete input with `Tco = Tci`. -/
theorem Ft_aircoolerE_unhandled_div_zero_witness :
    Ft_aircoolerE 100 50 30 30 2 3 = none :=
  Ft_aircoolerE_unhandled_div_zero 100 50 30 30 2 3 rfl

/-- C3 (counterexample to the claim as stated): at
`Thi=125, Tho=45, Tci=25, Tco=25` the division by zero does not propagate as
an infinite or NaN numeric result — the call aborts with the division error
and returns no numeric value at all (Python raises `ZeroDivisionError` on
float division by zero). -/
theorem Ft_aircoolerE_no_numeric_result :
    Ft_aircoolerE 125 45 25 25 1 1 = none := by
  have h5 : (0 : ℝ) < Real.log 5 := Real.log_pos (by norm_num)
  have e1 : divE ((125 : ℝ) - 25) (45 - 25) = some 5 := by
    norm_num [divE]
  have e2 : logE (5 : ℝ) = some (Real.log 5) := by
    norm_num [logE]
  have e3 : divE (((125 : ℝ) - 25) - (45 - 25)) (Real.log 5) =
      some (80 / Real.log 5) := by
    rw [divE, if_neg h5.ne']
    norm_num
  have eL : LMTD_E 125 45 25 25 = some (80 / Real.log 5) := by
    rw [LMTD_E, e1]
    show (logE 5).bind _ = _
    rw [e2]
    show divE _ _ = _
    exact e3
  rw [Ft_aircoolerE, eL]
  show (divE _ _).bind _ = _
  rw [show divE ((80 : ℝ) / Real.log 5) (125 - 25) =
    some (80 / Real.log 5 / 100) by norm_num [divE]]
  show (divE _ _).bind _ = _
  norm_num [divE]

/-- C5: `air_cooler_noise_Mukherjee` returns
`46 + 30*log10(tip_speed) + 10*log10(power/hp) - 20*log10(fan_diameter)`
when `induced` is false, and with `induced = True` returns exactly `3.0`
less. -/
theorem air_cooler_noise_Mukherjee_spec (tip_speed power fan_diameter : ℝ)
    (_h1 : 0 < tip_speed) (_h2 : 0 < power) (_h3 : 0 < fan_diameter) :
    air_cooler_noise_Mukherjee tip_speed power fan_diameter false =
      46 + 30 * log10 tip_speed + 10 * log10 (power / hp) -
        20 * log10 fan_diameter ∧
    air_cooler_noise_Mukherjee tip_speed power fan_diameter true =
      air_cooler_noise_Mukherjee tip_speed power fan_diameter false - 3.0 := by
  constructor
  · simp only [air_cooler_noise_Mukherjee, Bool.false_eq_true, if_false]
    norm_num
  · simp only [air_cooler_noise_Mukherjee, Bool.false_eq_true, if_false,
      if_true]

/-- Witness for C5 at `tip_speed = 2, power = 3, fan_diameter = 4`. -/
theorem air_cooler_noise_Mukherjee_spec_witness :
    air_cooler_noise_Mukherjee 2 3 4 true =
      air_cooler_noise_Mukherjee 2 3 4 false - 3.0 :=
  (air_cooler_noise_Mukherjee_spec 2 3 4 (by norm_num) (by norm_num)
    (by norm_num)).2

/-- C6: `h_Briggs_Young` computes `fin_height = 0.5*(fin_diameter -
tube_diameter)`, `V_max = m/(A_min*rho)`, `Re` and `Pr` via the external
collaborators, the Briggs-Young Nusselt number, `h = k/tube_diameter*Nu`,
the Kern-Kraus fin efficiency of `h`, and returns
`((efficiency*A_fin + A_tube_showing)/A*h)*A_increase`. -/
theorem h_Briggs_Young_spec (Reynolds : ℝ → ℝ → ℝ → ℝ → ℝ)
    (Prandtl : ℝ → ℝ → ℝ → ℝ)
    (fin_efficiency_Kern_Kraus : ℝ → ℝ → ℝ → ℝ → ℝ → ℝ)
    (m A A_min A_increase A_fin A_tube_showing tube_diameter fin_diameter
      fin_thickness bare_length rho Cp mu k k_fin : ℝ) :
    h_Briggs_Young Reynolds Prandtl fin_efficiency_Kern_Kraus m A A_min
        A_increase A_fin A_tube_showing tube_diameter fin_diameter
        fin_thickness bare_length rho Cp mu k k_fin =
      (fin_efficiency_Kern_Kraus tube_diameter fin_diameter fin_thickness
          k_fin
          (k / tube_diameter *
            (0.134 *
              Reynolds (m / (A_min * rho)) tube_diameter rho mu ^ (0.681 : ℝ) *
              Prandtl Cp mu k ^ ((1 : ℝ) / 3) *
              (bare_length / (0.5 * (fin_diameter - tube_diameter))) ^
                (0.2 : ℝ) *
              (bare_length / fin_thickness) ^ (0.1134 : ℝ))) * A_fin +
        A_tube_showing) / A *
        (k / tube_diameter *
          (0.134 *
            Reynolds (m / (A_min * rho)) tube_diameter rho mu ^ (0.681 : ℝ) *
            Prandtl Cp mu k ^ ((1 : ℝ) / 3) *
            (bare_length / (0.5 * (fin_diameter - tube_diameter))) ^
              (0.2 : ℝ) *
            (bare_length / fin_thickness) ^ (0.1134 : ℝ))) * A_increase :=
  rfl

/-- C7: `h_ESDU_highfin_staggered` computes the same pipeline as
`h_Briggs_Young` but with the ESDU Nusselt number, which uses the two
additional inputs `pitch_parallel` and `pitch_normal`, and returns
`((efficiency*A_fin + A_tube_showing)/A*h)*A_increase`. -/
theorem h_ESDU_highfin_staggered_spec (Reynolds : ℝ → ℝ → ℝ → ℝ → ℝ)
    (Prandtl : ℝ → ℝ → ℝ → ℝ)
    (fin_efficiency_Kern_Kraus : ℝ → ℝ → ℝ → ℝ → ℝ → ℝ)
    (m A A_min A_increase A_fin A_tube_showing tube_diameter fin_diameter
      fin_thickness bare_length pitch_parallel pitch_normal rho Cp mu k
      k_fin : ℝ) :
    h_ESDU_highfin_staggered Reynolds Prandtl fin_efficiency_Kern_Kraus m A
        A_min A_increase A_fin A_tube_showing tube_diameter fin_diameter
        fin_thickness bare_length pitch_parallel pitch_normal rho Cp mu k
        k_fin =
      (fin_efficiency_Kern_Kraus tube_diameter fin_diameter fin_thickness
          k_fin
          (k / tube_diameter *
            (0.242 *
              Reynolds (m / (A_min * rho)) tube_diameter rho mu ^ (0.658 : ℝ) *
              (bare_length / (0.5 * (fin_diameter - tube_diameter))) ^
                (0.297 : ℝ) *
              (pitch_normal / pitch_parallel) ^ (-0.091 : ℝ) *
              Prandtl Cp mu k ^ ((1 : ℝ) / 3))) * A_fin +
        A_tube_showing) / A *
        (k / tube_diameter *
          (0.242 *
            Reynolds (m / (A_min * rho)) tube_diameter rho mu ^ (0.658 : ℝ) *
            (bare_length / (0.5 * (fin_diameter - tube_diameter))) ^
              (0.297 : ℝ) *
            (pitch_normal / pitch_parallel) ^ (-0.091 : ℝ) *
            Prandtl Cp mu k ^ ((1 : ℝ) / 3))) * A_increase :=
  rfl

end

end HT
